import Mathlib

/-!
Shallow embedding of the golem-shopping-rust core
(src/components-rust/shopping-rust-shopping/src/{pricing,cart,order}/mod.rs).

Modelling conventions:
* Rust `f32` prices are modelled as `ℚ` (no float rounding is relevant to
  any property stated here: the code only copies, multiplies and sums
  prices, and every statement compares the code's own computations).
* `chrono::DateTime<Utc>` instants are modelled as `ℤ` timestamps; the
  ambient `chrono::Utc::now()` is passed explicitly as a `now` parameter.
* The bookkeeping fields `created_at` / `updated_at` (wall-clock stamps)
  are omitted from the state structures; no claim mentions them.
* `HashMap` in the merge functions is modelled as an association list with
  the same insert / entry-or-insert semantics; its value-iteration order is
  the map's insertion order (the Rust iteration order is unspecified, and
  every property proved about the map branch is insensitive to it).
* Cross-agent calls (product lookup, price lookup, downstream order
  initialization, email validation) are passed in as function parameters.
* Rust agent methods that mutate `self` and return `Result<T, E>` become
  functions `state → Except E T × state`.
-/

namespace Shopping

/-! ## pricing/mod.rs : data model -/

/-- `PricingItem` from pricing/mod.rs. -/
structure PricingItem where
  price : ℚ
  currency : String
  zone : String
deriving DecidableEq, Repr

/-- `PricingItem::key`. -/
def PricingItem.key (x : PricingItem) : String × String :=
  (x.zone, x.currency)

/-- `SalePricingItem` from pricing/mod.rs; `end_` models the `end` field. -/
structure SalePricingItem where
  price : ℚ
  currency : String
  zone : String
  start : Option ℤ
  end_ : Option ℤ
deriving DecidableEq, Repr

/-- `SalePricingItem::key`. -/
def SalePricingItem.key (x : SalePricingItem) :
    String × String × Option ℤ × Option ℤ :=
  (x.zone, x.currency, x.start, x.end_)

/-- `impl From<SalePricingItem> for PricingItem`. -/
def SalePricingItem.toPricingItem (x : SalePricingItem) : PricingItem :=
  { price := x.price, currency := x.currency, zone := x.zone }

/-- `Pricing` from pricing/mod.rs (timestamps omitted). -/
structure Pricing where
  product_id : String
  msrp_prices : List PricingItem
  list_prices : List PricingItem
  sale_prices : List SalePricingItem
deriving DecidableEq, Repr

/-! ## pricing/mod.rs : get_price -/

/-- The predicate of the `find` in `get_price`'s sale-price search:
zone and currency match, `start.is_none_or(|v| now >= v)` and
`end.is_none_or(|v| now < v)`. -/
def saleMatch (now : ℤ) (currency zone : String) (x : SalePricingItem) : Bool :=
  x.zone == zone && x.currency == currency
    && x.start.all (fun v => decide (v ≤ now))
    && x.end_.all (fun v => decide (now < v))

/-- The predicate of the `find` in `get_price`'s list/msrp searches. -/
def plainMatch (currency zone : String) (x : PricingItem) : Bool :=
  x.zone == zone && x.currency == currency

/-- `get_price` from pricing/mod.rs, with `chrono::Utc::now()` passed as
the explicit parameter `now`. -/
def get_price (now : ℤ) (currency zone : String) (pricing : Pricing) :
    Option PricingItem :=
  match pricing.sale_prices.find? (saleMatch now currency zone) with
  | some p => some p.toPricingItem
  | none =>
    match pricing.list_prices.find? (plainMatch currency zone) with
    | some p => some p
    | none => pricing.msrp_prices.find? (plainMatch currency zone)

/-! ## pricing/mod.rs : merge -/

/-- `HashMap::insert` on an association list: overwrite in place when the
key is present, append otherwise. -/
def mapInsert {K V : Type} [DecidableEq K] (m : List (K × V)) (k : K) (v : V) :
    List (K × V) :=
  if m.any (fun p => decide (p.1 = k)) then
    m.map (fun p => if p.1 = k then (k, v) else p)
  else m ++ [(k, v)]

/-- `HashMap::entry(key).or_insert(item)` on an association list: keep the
existing entry when the key is present, append otherwise. -/
def mapEntryOrInsert {K V : Type} [DecidableEq K] (m : List (K × V)) (k : K)
    (v : V) : List (K × V) :=
  if m.any (fun p => decide (p.1 = k)) then m else m ++ [(k, v)]

/-- The map-building phase shared by `merge_items` and `merge_sale_items`:
insert all updates, then entry-or-insert all current items. -/
def mergeMap {K V : Type} [DecidableEq K] (key : V → K)
    (updates current : List V) : List (K × V) :=
  current.foldl (fun m item => mapEntryOrInsert m (key item) item)
    (updates.foldl (fun m item => mapInsert m (key item) item) [])

/-- `merge_items` from pricing/mod.rs. -/
def merge_items (updates current : List PricingItem) : List PricingItem :=
  if updates.isEmpty then current
  else if current.isEmpty then updates
  else (mergeMap PricingItem.key updates current).map Prod.snd

/-- The comparator passed to `values.sort_by` in `merge_sale_items`. -/
def saleCmp (a b : SalePricingItem) : Ordering :=
  match a.start, b.start with
  | some x, some y => compare x y
  | some _, none => .gt
  | none, some _ => .lt
  | none, none => .eq

/-- The "less or equal" relation induced by `saleCmp`: a sort by `saleCmp`
produces a list pairwise related by `saleLe`. -/
def saleLe (a b : SalePricingItem) : Prop := saleCmp a b ≠ .gt

instance : DecidableRel saleLe := fun a b => by
  unfold saleLe; infer_instance

/-- `merge_sale_items` from pricing/mod.rs; the `sort_by` is modelled by
`List.insertionSort` over `saleLe` (any comparison sort agrees up to
ordering of `saleCmp`-equal elements, which no stated property observes). -/
def merge_sale_items (updates current : List SalePricingItem) :
    List SalePricingItem :=
  if updates.isEmpty then current
  else if current.isEmpty then updates
  else
    ((mergeMap SalePricingItem.key updates current).map Prod.snd).insertionSort
      saleLe

/-! ## common/mod.rs -/

/-- `CURRENCY_DEFAULT` from common/mod.rs. -/
def CURRENCY_DEFAULT : String := "USD"

/-- `PRICING_ZONE_DEFAULT` from common/mod.rs. -/
def PRICING_ZONE_DEFAULT : String := "global"

/-- `Address` from common/mod.rs. -/
structure Address where
  street : String
  city : String
  state_or_region : String
  country : String
  postal_code : String
  name : Option String
  phone_number : Option String
deriving DecidableEq, Repr

/-! ## product/mod.rs (the fields the cart/order components read) -/

/-- `Product` from product/mod.rs (timestamps omitted). -/
structure Product where
  product_id : String
  name : String
  brand : String
  description : String
  tags : List String
deriving DecidableEq, Repr

/-! ## cart/mod.rs : data model -/

/-- `CartItem` from cart/mod.rs. -/
structure CartItem where
  product_id : String
  product_name : String
  product_brand : String
  price : ℚ
  quantity : ℕ
deriving DecidableEq, Repr

/-- `Cart` from cart/mod.rs (`updated_at` omitted). -/
structure Cart where
  user_id : String
  email : Option String
  items : List CartItem
  billing_address : Option Address
  shipping_address : Option Address
  total : ℚ
  currency : String
  previous_order_ids : List String
deriving DecidableEq, Repr

/-- `Cart::new`. -/
def Cart.new (user_id : String) : Cart :=
  { user_id := user_id
    email := none
    items := []
    billing_address := none
    shipping_address := none
    total := 0
    currency := CURRENCY_DEFAULT
    previous_order_ids := [] }

/-- `get_total_price` from cart/mod.rs: a running `total += price * quantity`
over the items. -/
def get_total_price (items : List CartItem) : ℚ :=
  items.foldl (fun total item => total + item.price * (item.quantity : ℚ)) 0

/-- `Cart::recalculate_total`. -/
def Cart.recalculate_total (c : Cart) : Cart :=
  { c with total := get_total_price c.items }

/-- `Cart::clear`. -/
def Cart.clear (c : Cart) : Cart :=
  { c with items := [], billing_address := none, shipping_address := none,
           total := 0 }

/-- `Cart::order_created`. -/
def Cart.order_created (c : Cart) (order_id : String) : Cart :=
  let c := c.clear
  { c with previous_order_ids := c.previous_order_ids ++ [order_id] }

/-- `Cart::add_item` (the bool result is always `true` in the source). -/
def Cart.add_item (c : Cart) (item : CartItem) : Cart :=
  Cart.recalculate_total { c with items := c.items ++ [item] }

/-- `Cart::set_items`. -/
def Cart.set_items (c : Cart) (items : List CartItem) : Cart :=
  Cart.recalculate_total { c with items := items }

/-- `Cart::set_billing_address`. -/
def Cart.set_billing_address (c : Cart) (a : Address) : Cart :=
  { c with billing_address := some a }

/-- `Cart::set_shipping_address`. -/
def Cart.set_shipping_address (c : Cart) (a : Address) : Cart :=
  { c with shipping_address := some a }

/-- `Cart::set_email`. -/
def Cart.set_email (c : Cart) (email : String) : Cart :=
  { c with email := some email }

/-- `Cart::update_item_quantity`: sets the quantity on every item whose
product id matches; recalculates the total iff something matched; returns
whether anything matched. -/
def Cart.update_item_quantity (c : Cart) (product_id : String) (quantity : ℕ) :
    Bool × Cart :=
  if c.items.any (fun item => item.product_id == product_id) then
    (true, Cart.recalculate_total
      { c with items := c.items.map (fun item =>
          if item.product_id == product_id then { item with quantity := quantity }
          else item) })
  else (false, c)

/-- `Cart::remove_item`: retains items with a different product id and
recalculates iff a matching item existed; returns whether one existed. -/
def Cart.remove_item (c : Cart) (product_id : String) : Bool × Cart :=
  if c.items.any (fun item => item.product_id == product_id) then
    (true, Cart.recalculate_total
      { c with items := c.items.filter (fun item =>
          ¬ item.product_id == product_id) })
  else (false, c)

/-! ## order/mod.rs : data model -/

/-- `OrderStatus` from order/mod.rs. -/
inductive OrderStatus where
  | New
  | Shipped
  | Cancelled
deriving DecidableEq, Repr

/-- `OrderItem` from order/mod.rs. -/
structure OrderItem where
  product_id : String
  product_name : String
  product_brand : String
  price : ℚ
  quantity : ℕ
deriving DecidableEq, Repr

/-- `Order` from order/mod.rs (timestamps omitted). -/
structure Order where
  order_id : String
  user_id : String
  email : Option String
  order_status : OrderStatus
  items : List OrderItem
  billing_address : Option Address
  shipping_address : Option Address
  total : ℚ
  currency : String
deriving DecidableEq, Repr

/-- `CreateOrder` from order/mod.rs. -/
structure CreateOrder where
  user_id : String
  email : Option String
  items : List OrderItem
  billing_address : Option Address
  shipping_address : Option Address
  total : ℚ
  currency : String
deriving DecidableEq, Repr

/-- `Order::new`. -/
def Order.new (order_id user_id : String) : Order :=
  { order_id := order_id
    user_id := user_id
    email := none
    order_status := .New
    items := []
    billing_address := none
    shipping_address := none
    total := 0
    currency := CURRENCY_DEFAULT }

/-- `get_total_price` from order/mod.rs (textually identical to the cart
version, but over `OrderItem`). -/
def order_total_price (items : List OrderItem) : ℚ :=
  items.foldl (fun total item => total + item.price * (item.quantity : ℚ)) 0

/-- `Order::recalculate_total`. -/
def Order.recalculate_total (o : Order) : Order :=
  { o with total := order_total_price o.items }

/-- `Order::set_billing_address`. -/
def Order.set_billing_address (o : Order) (a : Address) : Order :=
  { o with billing_address := some a }

/-- `Order::set_shipping_address`. -/
def Order.set_shipping_address (o : Order) (a : Address) : Order :=
  { o with shipping_address := some a }

/-- `Order::set_email`. -/
def Order.set_email (o : Order) (email : String) : Order :=
  { o with email := some email }

/-- `Order::set_order_status`. -/
def Order.set_order_status (o : Order) (s : OrderStatus) : Order :=
  { o with order_status := s }

/-- `Order::add_item` (the bool result is always `true` in the source). -/
def Order.add_item (o : Order) (item : OrderItem) : Order :=
  Order.recalculate_total { o with items := o.items ++ [item] }

/-- `Order::update_item_quantity`: with `add = true` the quantity is added
to the existing one, otherwise it overwrites; recalculates iff something
matched. -/
def Order.update_item_quantity (o : Order) (product_id : String)
    (quantity : ℕ) (add : Bool) : Bool × Order :=
  if o.items.any (fun item => item.product_id == product_id) then
    (true, Order.recalculate_total
      { o with items := o.items.map (fun item =>
          if item.product_id == product_id then
            { item with quantity := if add then item.quantity + quantity
                                    else quantity }
          else item) })
  else (false, o)

/-- `Order::remove_item`. -/
def Order.remove_item (o : Order) (product_id : String) : Bool × Order :=
  if o.items.any (fun item => item.product_id == product_id) then
    (true, Order.recalculate_total
      { o with items := o.items.filter (fun item =>
          ¬ item.product_id == product_id) })
  else (false, o)

/-! ## cart/mod.rs : errors and conversions

The Rust error structs carry a constant human-readable message plus the
varying payload; the model keeps the payload. The cart and order modules
each declare their own error enums with overlapping names; here the cart
ones are prefixed `Cart` and the order ones `Order`. -/

/-- `AddItemError` from cart/mod.rs (payload: the product id). -/
inductive CartAddItemError where
  | ProductNotFound (product_id : String)
  | PricingNotFound (product_id : String)
deriving DecidableEq, Repr

/-- `RemoveItemError` from cart/mod.rs. -/
inductive CartRemoveItemError where
  | ItemNotFound (product_id : String)
deriving DecidableEq, Repr

/-- `UpdateItemQuantityError` from cart/mod.rs. -/
inductive CartUpdateItemQuantityError where
  | ItemNotFound (product_id : String)
deriving DecidableEq, Repr

/-- `CheckoutError` from cart/mod.rs. -/
inductive CheckoutError where
  | ProductNotFound (product_id : String)
  | PricingNotFound (product_id : String)
  | EmptyItems
  | EmptyEmail
  | BillingAddressNotSet
  | OrderCreate
deriving DecidableEq, Repr

/-- `OrderConfirmation` from cart/mod.rs. -/
structure OrderConfirmation where
  order_id : String
deriving DecidableEq, Repr

/-- `get_cart_item` from cart/mod.rs: the add-time snapshot of product data
and resolved price. -/
def get_cart_item (product : Product) (pricing : PricingItem) (quantity : ℕ) :
    CartItem :=
  { product_id := product.product_id
    product_name := product.name
    product_brand := product.brand
    price := pricing.price
    quantity := quantity }

/-- `impl From<CartItem> for OrderItem`. -/
def CartItem.toOrderItem (x : CartItem) : OrderItem :=
  { product_id := x.product_id
    product_name := x.product_name
    product_brand := x.product_brand
    price := x.price
    quantity := x.quantity }

/-- `impl From<Cart> for CreateOrder`. -/
def Cart.toCreateOrder (c : Cart) : CreateOrder :=
  { user_id := c.user_id
    email := c.email
    items := c.items.map CartItem.toOrderItem
    billing_address := c.billing_address
    shipping_address := c.shipping_address
    total := c.total
    currency := c.currency }

/-! ## cart/mod.rs : agent operations

External collaborators are parameters: `productLookup` models
`ProductAgentClient::get(pid).get_product()`, `priceLookup pid currency zone`
models `PricingAgentClient::get(pid).get_price(currency, zone)`, and
`orderInit order_id data` models
`OrderAgentClient::get(order_id).initialize_order(data)` succeeding. -/

/-- `validate_cart` from cart/mod.rs. -/
def validate_cart (c : Cart) : Except CheckoutError Unit :=
  if c.items.isEmpty then .error .EmptyItems
  else if c.billing_address.isNone then .error .BillingAddressNotSet
  else if c.email.isNone then .error .EmptyEmail
  else .ok ()

/-- `create_order` from cart/mod.rs: validate, then call the order agent's
`initialize_order`; a failed downstream call becomes `OrderCreate`. -/
def create_order (orderInit : String → CreateOrder → Bool)
    (order_id : String) (c : Cart) : Except CheckoutError String := do
  _ ← validate_cart c
  if orderInit order_id c.toCreateOrder then pure order_id
  else .error .OrderCreate

/-- `CartAgentImpl::checkout`, with the freshly generated UUID passed as
`order_id`. The fire-and-forget recommendation trigger has no effect on the
returned state. Returns the result together with the post-call cart. -/
def cartCheckout (orderInit : String → CreateOrder → Bool)
    (order_id : String) (c : Cart) :
    Except CheckoutError OrderConfirmation × Cart :=
  match create_order orderInit order_id c with
  | .error e => (.error e, c)
  | .ok _ => (.ok { order_id := order_id }, c.order_created order_id)

/-- `CartAgentImpl::add_item`: first try an in-place quantity overwrite;
only if the product is not in the cart are the product and price fetched
(product missing is reported before pricing missing). -/
def cartAddItem (productLookup : String → Option Product)
    (priceLookup : String → String → String → Option PricingItem)
    (c : Cart) (product_id : String) (quantity : ℕ) :
    Except CartAddItemError Unit × Cart :=
  let r := c.update_item_quantity product_id quantity
  if r.1 then (.ok (), r.2)
  else
    match productLookup product_id,
          priceLookup product_id c.currency PRICING_ZONE_DEFAULT with
    | some product, some pricing =>
        (.ok (), c.add_item (get_cart_item product pricing quantity))
    | none, _ => (.error (.ProductNotFound product_id), c)
    | some _, none => (.error (.PricingNotFound product_id), c)

/-- `CartAgentImpl::get_cart` on an existing cart: every stored item is
re-resolved against the product and pricing agents; items whose product or
price cannot be resolved are dropped; the surviving re-resolved items are
stored back via `set_items` (which recalculates the total). -/
def cartGetCart (productLookup : String → Option Product)
    (priceLookup : String → String → String → Option PricingItem)
    (c : Cart) : Cart :=
  c.set_items (c.items.filterMap (fun item =>
    match productLookup item.product_id,
          priceLookup item.product_id c.currency PRICING_ZONE_DEFAULT with
    | some product, some pricing =>
        some (get_cart_item product pricing item.quantity)
    | _, _ => none))

/-- `CartAgentImpl::remove_item`. -/
def cartRemoveItem (c : Cart) (product_id : String) :
    Except CartRemoveItemError Unit × Cart :=
  let r := c.remove_item product_id
  if r.1 then (.ok (), r.2) else (.error (.ItemNotFound product_id), c)

/-- `CartAgentImpl::update_item_quantity`. -/
def cartUpdateItemQuantity (c : Cart) (product_id : String) (quantity : ℕ) :
    Except CartUpdateItemQuantityError Unit × Cart :=
  let r := c.update_item_quantity product_id quantity
  if r.1 then (.ok (), r.2) else (.error (.ItemNotFound product_id), c)

/-! ## order/mod.rs : errors -/

/-- `ActionNotAllowedError` payload: the order's current status. -/
structure ActionNotAllowedError where
  status : OrderStatus
deriving DecidableEq, Repr

/-- `AddItemError` from order/mod.rs. -/
inductive OrderAddItemError where
  | ProductNotFound (product_id : String)
  | PricingNotFound (product_id : String)
  | ActionNotAllowed (e : ActionNotAllowedError)
deriving DecidableEq, Repr

/-- `RemoveItemError` from order/mod.rs. -/
inductive OrderRemoveItemError where
  | ItemNotFound (product_id : String)
  | ActionNotAllowed (e : ActionNotAllowedError)
deriving DecidableEq, Repr

/-- `ShipOrderError` from order/mod.rs. -/
inductive ShipOrderError where
  | EmptyItems
  | EmptyEmail
  | BillingAddressNotSet
  | ActionNotAllowed (e : ActionNotAllowedError)
deriving DecidableEq, Repr

/-- `UpdateEmailError` from order/mod.rs. -/
inductive OrderUpdateEmailError where
  | EmailNotValid (message : String)
  | ActionNotAllowed (e : ActionNotAllowedError)
deriving DecidableEq, Repr

/-- `UpdateItemQuantityError` from order/mod.rs. -/
inductive OrderUpdateItemQuantityError where
  | ItemNotFound (product_id : String)
  | ActionNotAllowed (e : ActionNotAllowedError)
deriving DecidableEq, Repr

/-- `CancelOrderError` from order/mod.rs. -/
inductive CancelOrderError where
  | ActionNotAllowed (e : ActionNotAllowedError)
deriving DecidableEq, Repr

/-- `InitOrderError` from order/mod.rs. -/
inductive InitOrderError where
  | ActionNotAllowed (e : ActionNotAllowedError)
deriving DecidableEq, Repr

/-- `UpdateAddressError` from order/mod.rs. -/
inductive OrderUpdateAddressError where
  | AddressNotValid (message : String)
  | ActionNotAllowed (e : ActionNotAllowedError)
deriving DecidableEq, Repr

/-! ## order/mod.rs : agent operations -/

/-- `OrderAgentImpl::initialize_order`: while the status is `New`, copies
every field of the request verbatim (the total included, with no
recomputation); otherwise `ActionNotAllowed`. -/
def orderInitializeOrder (o : Order) (data : CreateOrder) :
    Except InitOrderError Unit × Order :=
  if o.order_status = .New then
    (.ok (), { o with
      user_id := data.user_id
      email := data.email
      items := data.items
      billing_address := data.billing_address
      shipping_address := data.shipping_address
      total := data.total
      currency := data.currency })
  else (.error (.ActionNotAllowed ⟨o.order_status⟩), o)

/-- `OrderAgentImpl::update_email`; `emailValid` models
`EmailAddress::from_str(..).is_ok()`. -/
def orderUpdateEmail (emailValid : String → Bool) (o : Order)
    (email : String) : Except OrderUpdateEmailError Unit × Order :=
  if o.order_status = .New then
    if emailValid email then (.ok (), o.set_email email)
    else (.error (.EmailNotValid "Invalid email"), o)
  else (.error (.ActionNotAllowed ⟨o.order_status⟩), o)

/-- `OrderAgentImpl::add_item`. Mirrors the source exactly: there is NO
order-status guard — the quantity bump / snapshot append happens whatever
the status (the `ActionNotAllowed` variant of the error enum is never
constructed by this method). The quantity update is additive (`add = true`). -/
def orderAddItem (productLookup : String → Option Product)
    (priceLookup : String → String → String → Option PricingItem)
    (o : Order) (product_id : String) (quantity : ℕ) :
    Except OrderAddItemError Unit × Order :=
  let r := o.update_item_quantity product_id quantity true
  if r.1 then (.ok (), r.2)
  else
    match productLookup product_id,
          priceLookup product_id o.currency PRICING_ZONE_DEFAULT with
    | some product, some pricing =>
        (.ok (), o.add_item
          { product_id := product_id
            product_name := product.name
            product_brand := product.brand
            price := pricing.price
            quantity := quantity })
    | none, _ => (.error (.ProductNotFound product_id), o)
    | some _, none => (.error (.PricingNotFound product_id), o)

/-- `OrderAgentImpl::remove_item`. -/
def orderRemoveItem (o : Order) (product_id : String) :
    Except OrderRemoveItemError Unit × Order :=
  if o.order_status = .New then
    let r := o.remove_item product_id
    if r.1 then (.ok (), r.2) else (.error (.ItemNotFound product_id), o)
  else (.error (.ActionNotAllowed ⟨o.order_status⟩), o)

/-- `OrderAgentImpl::update_billing_address`. -/
def orderUpdateBillingAddress (o : Order) (a : Address) :
    Except OrderUpdateAddressError Unit × Order :=
  if o.order_status = .New then (.ok (), o.set_billing_address a)
  else (.error (.ActionNotAllowed ⟨o.order_status⟩), o)

/-- `OrderAgentImpl::update_shipping_address`. -/
def orderUpdateShippingAddress (o : Order) (a : Address) :
    Except OrderUpdateAddressError Unit × Order :=
  if o.order_status = .New then (.ok (), o.set_shipping_address a)
  else (.error (.ActionNotAllowed ⟨o.order_status⟩), o)

/-- `OrderAgentImpl::update_item_quantity` (overwriting, `add = false`). -/
def orderUpdateItemQuantity (o : Order) (product_id : String) (quantity : ℕ) :
    Except OrderUpdateItemQuantityError Unit × Order :=
  if o.order_status = .New then
    let r := o.update_item_quantity product_id quantity false
    if r.1 then (.ok (), r.2) else (.error (.ItemNotFound product_id), o)
  else (.error (.ActionNotAllowed ⟨o.order_status⟩), o)

/-- `OrderAgentImpl::ship_order`: the guards are checked in the source's
order — status, then empty items, then billing address, then email. -/
def orderShipOrder (o : Order) : Except ShipOrderError Unit × Order :=
  if o.order_status ≠ .New then
    (.error (.ActionNotAllowed ⟨o.order_status⟩), o)
  else if o.items.isEmpty then (.error .EmptyItems, o)
  else if o.billing_address.isNone then (.error .BillingAddressNotSet, o)
  else if o.email.isNone then (.error .EmptyEmail, o)
  else (.ok (), o.set_order_status .Shipped)

/-- `OrderAgentImpl::cancel_order`. -/
def orderCancelOrder (o : Order) : Except CancelOrderError Unit × Order :=
  if o.order_status = .New then (.ok (), o.set_order_status .Cancelled)
  else (.error (.ActionNotAllowed ⟨o.order_status⟩), o)

/-! ## Operation sequences and invariants used by the statements -/

/-- A cart item operation as the claim ranges over them, with the outcome
of the external product/pricing lookups baked into the `addItem` case. -/
inductive CartOp where
  | addItem (product : Option Product) (pricing : Option PricingItem)
      (product_id : String) (quantity : ℕ)
  | removeItem (product_id : String)
  | updateItemQuantity (product_id : String) (quantity : ℕ)

/-- The cart state reached by one agent operation (result discarded). -/
def cartStep (op : CartOp) (c : Cart) : Cart :=
  match op with
  | .addItem product pricing pid q =>
      (cartAddItem (fun _ => product) (fun _ _ _ => pricing) c pid q).2
  | .removeItem pid => (cartRemoveItem c pid).2
  | .updateItemQuantity pid q => (cartUpdateItemQuantity c pid q).2

/-- The cart state after a sequence of operations. -/
def cartRun (ops : List CartOp) (c : Cart) : Cart :=
  ops.foldl (fun c op => cartStep op c) c

/-- An order item operation (the claims' add/remove/update-quantity). -/
inductive OrderItemOp where
  | addItem (product : Option Product) (pricing : Option PricingItem)
      (product_id : String) (quantity : ℕ)
  | removeItem (product_id : String)
  | updateItemQuantity (product_id : String) (quantity : ℕ)

/-- The order state reached by one item-level agent operation. -/
def orderItemStep (op : OrderItemOp) (o : Order) : Order :=
  match op with
  | .addItem product pricing pid q =>
      (orderAddItem (fun _ => product) (fun _ _ _ => pricing) o pid q).2
  | .removeItem pid => (orderRemoveItem o pid).2
  | .updateItemQuantity pid q => (orderUpdateItemQuantity o pid q).2

/-- The order state after a sequence of item-level operations. -/
def orderItemRun (ops : List OrderItemOp) (o : Order) : Order :=
  ops.foldl (fun o op => orderItemStep op o) o

/-- Any mutating operation of the order agent's interface, with external
outcomes baked in (`validEmail` is the email validator's verdict). -/
inductive OrderOp where
  | initializeOrder (data : CreateOrder)
  | updateEmail (validEmail : Bool) (email : String)
  | addItem (product : Option Product) (pricing : Option PricingItem)
      (product_id : String) (quantity : ℕ)
  | removeItem (product_id : String)
  | updateBillingAddress (a : Address)
  | updateShippingAddress (a : Address)
  | updateItemQuantity (product_id : String) (quantity : ℕ)
  | shipOrder
  | cancelOrder

/-- The order state reached by one operation of the full interface. -/
def orderStep (op : OrderOp) (o : Order) : Order :=
  match op with
  | .initializeOrder data => (orderInitializeOrder o data).2
  | .updateEmail valid email => (orderUpdateEmail (fun _ => valid) o email).2
  | .addItem product pricing pid q =>
      (orderAddItem (fun _ => product) (fun _ _ _ => pricing) o pid q).2
  | .removeItem pid => (orderRemoveItem o pid).2
  | .updateBillingAddress a => (orderUpdateBillingAddress o a).2
  | .updateShippingAddress a => (orderUpdateShippingAddress o a).2
  | .updateItemQuantity pid q => (orderUpdateItemQuantity o pid q).2
  | .shipOrder => (orderShipOrder o).2
  | .cancelOrder => (orderCancelOrder o).2

/-- The total invariant on carts: the stored total is the sum over the
items of price × quantity. -/
def cartInv (c : Cart) : Prop :=
  c.total = (c.items.map (fun i => i.price * (i.quantity : ℚ))).sum

/-- The total invariant on orders. -/
def orderInv (o : Order) : Prop :=
  o.total = (o.items.map (fun i => i.price * (i.quantity : ℚ))).sum

instance (c : Cart) : Decidable (cartInv c) := by unfold cartInv; infer_instance

instance (o : Order) : Decidable (orderInv o) := by
  unfold orderInv; infer_instance

/-! ## Spec-side predicates for the pricing-resolution claim -/

/-- The claim's condition on a sale entry: zone and currency match and the
window contains `now` (`start ≤ now < end`, an absent bound unconstrained). -/
def saleApplies (now : ℤ) (currency zone : String) (s : SalePricingItem) :
    Prop :=
  s.zone = zone ∧ s.currency = currency ∧
    (∀ t, s.start = some t → t ≤ now) ∧ (∀ t, s.end_ = some t → now < t)

/-- The claim's condition on a list/msrp entry: zone and currency match. -/
def plainApplies (currency zone : String) (x : PricingItem) : Prop :=
  x.zone = zone ∧ x.currency = currency

instance (now : ℤ) (currency zone : String) (s : SalePricingItem) :
    Decidable (saleApplies now currency zone s) := by
  unfold saleApplies
  exact instDecidableAnd

instance (currency zone : String) (x : PricingItem) :
    Decidable (plainApplies currency zone x) := by
  unfold plainApplies
  exact instDecidableAnd

/-! ## Concrete sample values for witnesses and counterexamples -/

/-- A sample address. -/
def addrW : Address :=
  { street := "1 Main St", city := "Springfield", state_or_region := "IL"
    country := "US", postal_code := "62701", name := none
    phone_number := none }

/-- A sample product. -/
def productW : Product :=
  { product_id := "p1", name := "Widget", brand := "Acme"
    description := "d", tags := [] }

/-- A sample resolved price. -/
def priceW : PricingItem := { price := 10, currency := "USD", zone := "global" }

/-- A second resolved price for the same key, with a different amount. -/
def priceW12 : PricingItem :=
  { price := 12, currency := "USD", zone := "global" }

/-- A sample pricing record with all three tiers populated for
(USD, global) and the sale window containing instant 5. -/
def pricingW : Pricing :=
  { product_id := "p1"
    msrp_prices := [{ price := 30, currency := "USD", zone := "global" }]
    list_prices := [{ price := 20, currency := "USD", zone := "global" }]
    sale_prices := [{ price := 10, currency := "USD", zone := "global"
                      start := some 0, end_ := some 10 }] }

/-- A sale entry starting at 1. -/
def saleA : SalePricingItem :=
  { price := 1, currency := "USD", zone := "global", start := some 1
    end_ := none }

/-- A sale entry starting at 0 (earlier than `saleA`). -/
def saleB : SalePricingItem :=
  { price := 2, currency := "USD", zone := "global", start := some 0
    end_ := none }

/-- A sample update list for the plain-tier merge: overrides (global, USD)
and introduces (global, EUR). -/
def mergeU : List PricingItem :=
  [{ price := 12, currency := "USD", zone := "global" },
   { price := 7, currency := "EUR", zone := "global" }]

/-- A sample current list for the plain-tier merge: (global, USD) collides
with `mergeU`, (east, USD) only exists here. -/
def mergeC : List PricingItem :=
  [{ price := 10, currency := "USD", zone := "global" },
   { price := 5, currency := "USD", zone := "east" }]

/-- A sample cart item: price 10, quantity 2. -/
def cartItemW : CartItem :=
  { product_id := "p1", product_name := "Widget", product_brand := "Acme"
    price := 10, quantity := 2 }

/-- A sample cart that passes checkout validation. -/
def cartW : Cart :=
  { user_id := "u", email := some "a@b.com", items := [cartItemW]
    billing_address := some addrW, shipping_address := none, total := 20
    currency := "USD", previous_order_ids := ["old"] }

/-- A sample order item: price 5, quantity 1. -/
def orderItemW : OrderItem :=
  { product_id := "p1", product_name := "Widget", product_brand := "Acme"
    price := 5, quantity := 1 }

/-- A sample `New` order with one item, billing address and email set. -/
def orderBase : Order :=
  { order_id := "o1", user_id := "u", email := some "a@b.com"
    order_status := .New, items := [orderItemW]
    billing_address := some addrW, shipping_address := none, total := 5
    currency := "USD" }

/-! ## Bridge lemmas -/

/-- `saleApplies` is exactly the `find` predicate of `get_price`'s
sale-price search. -/
lemma saleMatch_iff (now : ℤ) (currency zone : String)
    (s : SalePricingItem) :
    saleMatch now currency zone s = true ↔ saleApplies now currency zone s := by
  unfold saleMatch saleApplies
  cases s.start <;> cases s.end_ <;> simp [Option.all, and_assoc]

/-- `plainApplies` is exactly the `find` predicate of `get_price`'s
list/msrp searches. -/
lemma plainMatch_iff (currency zone : String) (x : PricingItem) :
    plainMatch currency zone x = true ↔ plainApplies currency zone x := by
  unfold plainMatch plainApplies
  simp

/-- C1, resolution precedence of `get_price`. -/
theorem get_price_precedence (now : ℤ) (currency zone : String) (p : Pricing) :
    ((∃ s ∈ p.sale_prices, saleApplies now currency zone s) →
      ∃ s ∈ p.sale_prices, saleApplies now currency zone s ∧
        get_price now currency zone p = some s.toPricingItem)
    ∧ ((∀ s ∈ p.sale_prices, ¬ saleApplies now currency zone s) →
        (∃ x ∈ p.list_prices, plainApplies currency zone x) →
        ∃ x ∈ p.list_prices, plainApplies currency zone x ∧
          get_price now currency zone p = some x)
    ∧ ((∀ s ∈ p.sale_prices, ¬ saleApplies now currency zone s) →
        (∀ x ∈ p.list_prices, ¬ plainApplies currency zone x) →
        (∃ x ∈ p.msrp_prices, plainApplies currency zone x) →
        ∃ x ∈ p.msrp_prices, plainApplies currency zone x ∧
          get_price now currency zone p = some x)
    ∧ ((∀ s ∈ p.sale_prices, ¬ saleApplies now currency zone s) →
        (∀ x ∈ p.list_prices, ¬ plainApplies currency zone x) →
        (∀ x ∈ p.msrp_prices, ¬ plainApplies currency zone x) →
        get_price now currency zone p = none) := by
  refine ⟨?_, ?_, ?_, ?_⟩
  · rintro ⟨s, hs, happ⟩
    cases hfind : p.sale_prices.find? (saleMatch now currency zone) with
    | none =>
      exact absurd ((saleMatch_iff ..).mpr happ)
        (List.find?_eq_none.mp hfind s hs)
    | some a =>
      refine ⟨a, List.mem_of_find?_eq_some hfind,
        (saleMatch_iff ..).mp (List.find?_some hfind), ?_⟩
      simp [get_price, hfind]
  · rintro hnosale ⟨x, hx, happ⟩
    have hfind : p.sale_prices.find? (saleMatch now currency zone) = none :=
      List.find?_eq_none.mpr fun s hs hmatch =>
        hnosale s hs ((saleMatch_iff ..).mp hmatch)
    cases hlist : p.list_prices.find? (plainMatch currency zone) with
    | none =>
      exact absurd ((plainMatch_iff ..).mpr happ)
        (List.find?_eq_none.mp hlist x hx)
    | some a =>
      refine ⟨a, List.mem_of_find?_eq_some hlist,
        (plainMatch_iff ..).mp (List.find?_some hlist), ?_⟩
      simp [get_price, hfind, hlist]
  · rintro hnosale hnolist ⟨x, hx, happ⟩
    have hfind : p.sale_prices.find? (saleMatch now currency zone) = none :=
      List.find?_eq_none.mpr fun s hs hmatch =>
        hnosale s hs ((saleMatch_iff ..).mp hmatch)
    have hlist : p.list_prices.find? (plainMatch currency zone) = none :=
      List.find?_eq_none.mpr fun y hy hmatch =>
        hnolist y hy ((plainMatch_iff ..).mp hmatch)
    cases hmsrp : p.msrp_prices.find? (plainMatch currency zone) with
    | none =>
      exact absurd ((plainMatch_iff ..).mpr happ)
        (List.find?_eq_none.mp hmsrp x hx)
    | some a =>
      refine ⟨a, List.mem_of_find?_eq_some hmsrp,
        (plainMatch_iff ..).mp (List.find?_some hmsrp), ?_⟩
      simp [get_price, hfind, hlist, hmsrp]
  · intro hnosale hnolist hnomsrp
    have hfind : p.sale_prices.find? (saleMatch now currency zone) = none :=
      List.find?_eq_none.mpr fun s hs hmatch =>
        hnosale s hs ((saleMatch_iff ..).mp hmatch)
    have hlist : p.list_prices.find? (plainMatch currency zone) = none :=
      List.find?_eq_none.mpr fun y hy hmatch =>
        hnolist y hy ((plainMatch_iff ..).mp hmatch)
    have hmsrp : p.msrp_prices.find? (plainMatch currency zone) = none :=
      List.find?_eq_none.mpr fun y hy hmatch =>
        hnomsrp y hy ((plainMatch_iff ..).mp hmatch)
    simp [get_price, hfind, hlist, hmsrp]

/-- C1 witness: on a record with all three tiers matching and the sale
window containing `now = 5`, resolution returns the (in-window) sale
price. -/
theorem get_price_precedence_witness :
    ∃ s ∈ pricingW.sale_prices, saleApplies 5 "USD" "global" s ∧
      get_price 5 "USD" "global" pricingW = some s.toPricingItem :=
  (get_price_precedence 5 "USD" "global" pricingW).1
    ⟨{ price := 10, currency := "USD", zone := "global", start := some 0
       end_ := some 10 }, by simp [pricingW], by simp [saleApplies]⟩

/-- C8: `ship_order` checks status, then non-empty items, then billing
address, then email, in that order, returning the first failing check's
error and leaving the order unchanged; when all pass it transitions the
status to `Shipped`. -/
theorem ship_order_checks (o : Order) :
    (o.order_status ≠ .New →
      orderShipOrder o = (.error (.ActionNotAllowed ⟨o.order_status⟩), o))
    ∧ (o.order_status = .New → o.items = [] →
        orderShipOrder o = (.error .EmptyItems, o))
    ∧ (o.order_status = .New → o.items ≠ [] → o.billing_address = none →
        orderShipOrder o = (.error .BillingAddressNotSet, o))
    ∧ (o.order_status = .New → o.items ≠ [] → o.billing_address ≠ none →
        o.email = none → orderShipOrder o = (.error .EmptyEmail, o))
    ∧ (o.order_status = .New → o.items ≠ [] → o.billing_address ≠ none →
        o.email ≠ none →
        orderShipOrder o = (.ok (), o.set_order_status .Shipped)) := by
  refine ⟨?_, ?_, ?_, ?_, ?_⟩ <;> intro h1
  · simp [orderShipOrder, h1]
  all_goals intro h2
  · simp [orderShipOrder, h1, h2]
  all_goals intro h3
  · simp [orderShipOrder, h1, h2, h3]
  all_goals intro h4
  all_goals simp [orderShipOrder, h1, h2, h3, h4, Option.isNone_iff_eq_none]

/-- C8 witness: a `New` order with no items but billing address and email
set fails with `EmptyItems` (items are checked before billing/email). -/
theorem ship_order_checks_witness :
    orderShipOrder { orderBase with items := [] } =
      (.error .EmptyItems, { orderBase with items := [] }) :=
  (ship_order_checks { orderBase with items := [] }).2.1 rfl rfl

/-! ## Totals -/

lemma foldl_add_eq_sum {α : Type} (f : α → ℚ) (l : List α) :
    ∀ a : ℚ, l.foldl (fun t i => t + f i) a = a + (l.map f).sum := by
  induction l with
  | nil => simp
  | cons x xs ih => intro a; simp [List.foldl_cons, ih, add_assoc]

lemma get_total_price_eq_sum (items : List CartItem) :
    get_total_price items =
      (items.map (fun i => i.price * (i.quantity : ℚ))).sum := by
  simpa using foldl_add_eq_sum (fun i : CartItem => i.price * (i.quantity : ℚ))
    items 0

lemma order_total_price_eq_sum (items : List OrderItem) :
    order_total_price items =
      (items.map (fun i => i.price * (i.quantity : ℚ))).sum := by
  simpa using foldl_add_eq_sum
    (fun i : OrderItem => i.price * (i.quantity : ℚ)) items 0

lemma cartInv_recalculate (c : Cart) : cartInv c.recalculate_total := by
  simp [cartInv, Cart.recalculate_total, get_total_price_eq_sum]

lemma orderInv_recalculate (o : Order) : orderInv o.recalculate_total := by
  simp [orderInv, Order.recalculate_total, order_total_price_eq_sum]

lemma cartInv_update_item_quantity (c : Cart) (pid : String) (q : ℕ)
    (h : cartInv c) : cartInv (c.update_item_quantity pid q).2 := by
  unfold Cart.update_item_quantity
  split
  · exact cartInv_recalculate _
  · exact h

lemma cartInv_remove_item (c : Cart) (pid : String) (h : cartInv c) :
    cartInv (c.remove_item pid).2 := by
  unfold Cart.remove_item
  split
  · exact cartInv_recalculate _
  · exact h

lemma cartInv_step (op : CartOp) (c : Cart) (h : cartInv c) :
    cartInv (cartStep op c) := by
  cases op with
  | addItem product pricing pid q =>
    simp only [cartStep, cartAddItem]
    split
    · exact cartInv_update_item_quantity c pid q h
    · split
      · exact cartInv_recalculate _
      · exact h
      · exact h
  | removeItem pid =>
    simp only [cartStep, cartRemoveItem]
    split
    · exact cartInv_remove_item c pid h
    · exact h
  | updateItemQuantity pid q =>
    simp only [cartStep, cartUpdateItemQuantity]
    split
    · exact cartInv_update_item_quantity c pid q h
    · exact h

lemma orderInv_update_item_quantity (o : Order) (pid : String) (q : ℕ)
    (add : Bool) (h : orderInv o) :
    orderInv (o.update_item_quantity pid q add).2 := by
  unfold Order.update_item_quantity
  split
  · exact orderInv_recalculate _
  · exact h

lemma orderInv_remove_item (o : Order) (pid : String) (h : orderInv o) :
    orderInv (o.remove_item pid).2 := by
  unfold Order.remove_item
  split
  · exact orderInv_recalculate _
  · exact h

lemma orderInv_step (op : OrderItemOp) (o : Order) (h : orderInv o) :
    orderInv (orderItemStep op o) := by
  cases op with
  | addItem product pricing pid q =>
    simp only [orderItemStep, orderAddItem]
    split
    · exact orderInv_update_item_quantity o pid q true h
    · split
      · exact orderInv_recalculate _
      · exact h
      · exact h
  | removeItem pid =>
    simp only [orderItemStep, orderRemoveItem]
    split
    · split
      · exact orderInv_remove_item o pid h
      · exact h
    · exact h
  | updateItemQuantity pid q =>
    simp only [orderItemStep, orderUpdateItemQuantity]
    split
    · split
      · exact orderInv_update_item_quantity o pid q false h
      · exact h
    · exact h

/-- C2: freshly created carts and orders satisfy
`total = Σ price × quantity`, and every add-item / remove-item /
update-item-quantity agent operation (in any sequence) preserves it. -/
theorem totals_invariant :
    (∀ u, cartInv (Cart.new u))
    ∧ (∀ ops c, cartInv c → cartInv (cartRun ops c))
    ∧ (∀ oid u, orderInv (Order.new oid u))
    ∧ (∀ ops o, orderInv o → orderInv (orderItemRun ops o)) := by
  refine ⟨fun u => by simp [cartInv, Cart.new], ?_,
    fun oid u => by simp [orderInv, Order.new], ?_⟩
  · intro ops
    induction ops with
    | nil => intro c h; exact h
    | cons op ops ih =>
      intro c h
      exact ih (cartStep op c) (cartInv_step op c h)
  · intro ops
    induction ops with
    | nil => intro o h; exact h
    | cons op ops ih =>
      intro o h
      exact ih (orderItemStep op o) (orderInv_step op o h)

/-- C2 witness: the invariant holds of the sample cart and survives a
concrete add / update / remove sequence. -/
theorem totals_invariant_witness :
    cartInv (cartRun
      [.addItem (some productW) (some priceW) "p2" 3,
       .updateItemQuantity "p1" 5, .removeItem "p2"] cartW) :=
  totals_invariant.2.1
    [.addItem (some productW) (some priceW) "p2" 3,
     .updateItemQuantity "p1" 5, .removeItem "p2"] cartW
    (by norm_num [cartInv, cartW, cartItemW])

/-! ## Order status handling -/

lemma order_uiq_status (o : Order) (pid : String) (q : ℕ) (add : Bool) :
    (o.update_item_quantity pid q add).2.order_status = o.order_status := by
  unfold Order.update_item_quantity
  split <;> rfl

lemma order_remove_status (o : Order) (pid : String) :
    (o.remove_item pid).2.order_status = o.order_status := by
  unfold Order.remove_item
  split <;> rfl

lemma orderAddItem_status (pl : String → Option Product)
    (prl : String → String → String → Option PricingItem) (o : Order)
    (pid : String) (q : ℕ) :
    (orderAddItem pl prl o pid q).2.order_status = o.order_status := by
  simp only [orderAddItem]
  split
  · exact order_uiq_status o pid q true
  · split <;> rfl

/-- C3: `OrderAgentImpl::add_item` has no status guard. On a `Shipped`
order holding the product already, it succeeds and bumps the quantity
(additively) instead of failing with `ActionNotAllowed(Shipped)`; the
`ActionNotAllowed` variant of its error enum is never produced. -/
theorem orderAddItem_ignores_terminal_status :
    orderAddItem (fun _ => none) (fun _ _ _ => none)
      { orderBase with order_status := .Shipped } "p1" 2 =
    (.ok (), { orderBase with
               order_status := .Shipped
               items := [{ orderItemW with quantity := 3 }]
               total := 15 }) := by
  norm_num [orderAddItem, Order.update_item_quantity, Order.recalculate_total,
    order_total_price, orderBase, orderItemW]

/-- C5: once an order is `Shipped` or `Cancelled`, no operation of the
agent interface changes its status; `cancel_order` on such an order
returns `ActionNotAllowed` with the current status and leaves the order
unchanged; `cancel_order` on a `New` order unconditionally moves it to
`Cancelled`. -/
theorem terminal_status_frozen (o : Order)
    (h : o.order_status = .Shipped ∨ o.order_status = .Cancelled) :
    (∀ op, (orderStep op o).order_status = o.order_status)
    ∧ orderCancelOrder o = (.error (.ActionNotAllowed ⟨o.order_status⟩), o)
    ∧ (∀ o' : Order, o'.order_status = .New →
        orderCancelOrder o' = (.ok (), o'.set_order_status .Cancelled)) := by
  have hne : ¬ o.order_status = .New := by
    rcases h with h | h <;> simp [h]
  refine ⟨?_, by simp [orderCancelOrder, hne], fun o' h' => by
    simp [orderCancelOrder, h']⟩
  intro op
  cases op with
  | initializeOrder data => simp [orderStep, orderInitializeOrder, hne]
  | updateEmail valid email => simp [orderStep, orderUpdateEmail, hne]
  | addItem product pricing pid q => exact orderAddItem_status _ _ o pid q
  | removeItem pid => simp [orderStep, orderRemoveItem, hne]
  | updateBillingAddress a =>
    simp [orderStep, orderUpdateBillingAddress, hne]
  | updateShippingAddress a =>
    simp [orderStep, orderUpdateShippingAddress, hne]
  | updateItemQuantity pid q =>
    simp [orderStep, orderUpdateItemQuantity, hne]
  | shipOrder => simp [orderStep, orderShipOrder, hne]
  | cancelOrder => simp [orderStep, orderCancelOrder, hne]

/-- C5 witness: cancelling the sample order once shipped yields
`ActionNotAllowed(Shipped)` and leaves it unchanged. -/
theorem terminal_status_frozen_witness :
    orderCancelOrder { orderBase with order_status := .Shipped } =
      (.error (.ActionNotAllowed ⟨.Shipped⟩),
        { orderBase with order_status := .Shipped }) :=
  (terminal_status_frozen { orderBase with order_status := .Shipped }
    (Or.inl rfl)).2.1

/-! ## initialize_order -/

lemma orderInv_uiq_of_updated (o : Order) (pid : String) (q : ℕ)
    (add : Bool) (h : (o.update_item_quantity pid q add).1 = true) :
    orderInv (o.update_item_quantity pid q add).2 := by
  unfold Order.update_item_quantity at h ⊢
  split at h
  · simp_all
    exact orderInv_recalculate _
  · cases h

lemma orderInv_remove_of_removed (o : Order) (pid : String)
    (h : (o.remove_item pid).1 = true) : orderInv (o.remove_item pid).2 := by
  unfold Order.remove_item at h ⊢
  split at h
  · simp_all
    exact orderInv_recalculate _
  · cases h

/-- C10: while the status is `New`, `initialize_order` copies the request
verbatim — the stored total is the request's total, not recomputed from
the request's items, so it can violate the total invariant; each
subsequent successful add / remove / update-quantity operation
re-establishes the invariant (with no assumption on the prior state). -/
theorem initialize_order_total_verbatim :
    (∀ (o : Order) (data : CreateOrder), o.order_status = .New →
      orderInitializeOrder o data =
        (.ok (), { o with
                   user_id := data.user_id
                   email := data.email
                   items := data.items
                   billing_address := data.billing_address
                   shipping_address := data.shipping_address
                   total := data.total
                   currency := data.currency }))
    ∧ (∃ (o : Order) (data : CreateOrder), o.order_status = .New ∧
        ¬ orderInv (orderInitializeOrder o data).2)
    ∧ (∀ (o : Order) (pid : String) (q : ℕ),
        (orderUpdateItemQuantity o pid q).1 = .ok () →
        orderInv (orderUpdateItemQuantity o pid q).2)
    ∧ (∀ (o : Order) (pid : String),
        (orderRemoveItem o pid).1 = .ok () →
        orderInv (orderRemoveItem o pid).2)
    ∧ (∀ (pl : String → Option Product)
        (prl : String → String → String → Option PricingItem)
        (o : Order) (pid : String) (q : ℕ),
        (orderAddItem pl prl o pid q).1 = .ok () →
        orderInv (orderAddItem pl prl o pid q).2) := by
  refine ⟨?_, ?_, ?_, ?_, ?_⟩
  · intro o data h
    simp [orderInitializeOrder, h]
  · refine ⟨orderBase,
      { user_id := "u", email := none, items := [],
        billing_address := none, shipping_address := none, total := 5,
        currency := "USD" }, rfl, ?_⟩
    norm_num [orderInitializeOrder, orderBase, orderInv]
  · intro o pid q h
    simp only [orderUpdateItemQuantity] at h ⊢
    split at h
    · rename_i hst
      split at h
      · rename_i hb
        rw [if_pos hst, if_pos hb]
        exact orderInv_uiq_of_updated o pid q false hb
      · simp at h
    · simp at h
  · intro o pid h
    simp only [orderRemoveItem] at h ⊢
    split at h
    · rename_i hst
      split at h
      · rename_i hb
        rw [if_pos hst, if_pos hb]
        exact orderInv_remove_of_removed o pid hb
      · simp at h
    · simp at h
  · intro pl prl o pid q h
    simp only [orderAddItem] at h ⊢
    split at h
    · rename_i hb
      rw [if_pos hb]
      exact orderInv_uiq_of_updated o pid q true hb
    · rename_i hb
      rw [if_neg hb]
      split at h
      · exact orderInv_recalculate _
      · simp at h
      · simp at h

/-- C10 witness: initializing the sample `New` order from a request with
no items but total 5 stores total 5 verbatim, violating the invariant. -/
theorem initialize_order_total_verbatim_witness :
    orderInitializeOrder orderBase
      { user_id := "u2", email := none, items := [],
        billing_address := none, shipping_address := none, total := 7,
        currency := "USD" } =
      (.ok (), { orderBase with
                 user_id := "u2"
                 email := none
                 items := []
                 billing_address := none
                 shipping_address := none
                 total := 7
                 currency := "USD" }) :=
  initialize_order_total_verbatim.1 orderBase
    { user_id := "u2", email := none, items := [],
      billing_address := none, shipping_address := none, total := 7,
      currency := "USD" } rfl

/-! ## Checkout -/

/-- C4: for a cart passing checkout validation, a failed downstream
order-initialization makes checkout fail with `OrderCreate` and returns
the cart completely unchanged; a successful one returns the generated
order id and the cleared cart — items, addresses and total reset, email
kept, and the order id appended to the history. -/
theorem checkout_spec (init : String → CreateOrder → Bool) (oid : String)
    (c : Cart) (h1 : c.items ≠ []) (h2 : c.billing_address ≠ none)
    (h3 : c.email ≠ none) :
    (init oid c.toCreateOrder = false →
      cartCheckout init oid c = (.error .OrderCreate, c))
    ∧ (init oid c.toCreateOrder = true →
      cartCheckout init oid c = (.ok ⟨oid⟩, c.order_created oid)
      ∧ (c.order_created oid).items = []
      ∧ (c.order_created oid).billing_address = none
      ∧ (c.order_created oid).shipping_address = none
      ∧ (c.order_created oid).total = 0
      ∧ (c.order_created oid).email = c.email
      ∧ (c.order_created oid).previous_order_ids
          = c.previous_order_ids ++ [oid]) := by
  have hv : validate_cart c = .ok () := by
    simp [validate_cart, List.isEmpty_iff, Option.isNone_iff_eq_none, h1, h2,
      h3]
  constructor
  · intro hf
    simp [cartCheckout, create_order, hv, hf, Bind.bind, Except.bind]
  · intro ht
    refine ⟨by simp [cartCheckout, create_order, hv, ht, Bind.bind,
      Except.bind, Pure.pure, Except.pure], ?_, ?_, ?_, ?_, ?_, ?_⟩ <;>
      simp [Cart.order_created, Cart.clear]

/-- C4 witness: checking out the sample valid cart with a succeeding
downstream call clears it and appends the order id to its history. -/
theorem checkout_spec_witness :
    cartCheckout (fun _ _ => true) "o2" cartW =
      (.ok ⟨"o2"⟩, cartW.order_created "o2")
    ∧ (cartW.order_created "o2").items = []
    ∧ (cartW.order_created "o2").billing_address = none
    ∧ (cartW.order_created "o2").shipping_address = none
    ∧ (cartW.order_created "o2").total = 0
    ∧ (cartW.order_created "o2").email = cartW.email
    ∧ (cartW.order_created "o2").previous_order_ids
        = cartW.previous_order_ids ++ ["o2"] :=
  (checkout_spec (fun _ _ => true) "o2" cartW (by simp [cartW])
    (by simp [cartW]) (by simp [cartW])).2 rfl

/-! ## Cart price snapshots -/

/-- C9 counterexample: the stored unit price IS replaced by a freshly
resolved one when the cart is read back. The sample cart stores price 10
for its item; with the pricing collaborator now resolving 12, `get_cart`
returns — and stores — price 12. -/
theorem get_cart_reresolves_prices :
    cartW.items.map CartItem.price = [10]
    ∧ (cartGetCart (fun _ => some productW) (fun _ _ _ => some priceW12)
        cartW).items.map CartItem.price = [12] := by
  constructor
  · simp [cartW, cartItemW]
  · simp [cartGetCart, cartW, cartItemW, Cart.set_items, get_cart_item,
      productW, priceW12, Cart.recalculate_total]

/-- C9 amended: the unit price is a snapshot taken when the item is added
and is not changed by add / update-quantity / remove / setter operations;
`get_cart`, however, re-resolves every stored item, replacing it by a
fresh product/pricing snapshot (and dropping it when resolution fails). -/
theorem cart_price_snapshot :
    (∀ (pl : String → Option Product)
      (prl : String → String → String → Option PricingItem)
      (c : Cart) (pid : String) (q : ℕ) (product : Product)
      (pricing : PricingItem),
      c.items.any (fun i => i.product_id == pid) = false →
      pl pid = some product →
      prl pid c.currency PRICING_ZONE_DEFAULT = some pricing →
      (cartAddItem pl prl c pid q).2.items
        = c.items ++ [get_cart_item product pricing q])
    ∧ (∀ (c : Cart) (pid : String) (q : ℕ),
        (c.update_item_quantity pid q).2.items.map
            (fun i => (i.product_id, i.price))
          = c.items.map (fun i => (i.product_id, i.price)))
    ∧ (∀ (c : Cart) (pid : String),
        (c.remove_item pid).2.items
          = c.items.filter (fun i => ¬ i.product_id == pid))
    ∧ (∀ (c : Cart) (a : Address) (e : String),
        (c.set_billing_address a).items = c.items
        ∧ (c.set_shipping_address a).items = c.items
        ∧ (c.set_email e).items = c.items)
    ∧ (∀ (pl : String → Option Product)
        (prl : String → String → String → Option PricingItem) (c : Cart),
        ∀ i ∈ (cartGetCart pl prl c).items,
        ∃ x ∈ c.items, ∃ product pricing,
          pl x.product_id = some product
          ∧ prl x.product_id c.currency PRICING_ZONE_DEFAULT = some pricing
          ∧ i = get_cart_item product pricing x.quantity) := by
  refine ⟨?_, ?_, ?_, ?_, ?_⟩
  · intro pl prl c pid q product pricing hfresh hpl hprl
    simp only [cartAddItem, Cart.update_item_quantity, hfresh,
      Bool.false_eq_true, if_false, hpl, hprl, Cart.add_item,
      Cart.recalculate_total]
  · intro c pid q
    unfold Cart.update_item_quantity
    split
    · simp only [Cart.recalculate_total, List.map_map]
      refine List.map_congr_left ?_
      intro i _
      by_cases hi : i.product_id = pid <;> simp [hi]
    · rfl
  · intro c pid
    unfold Cart.remove_item
    split
    · rfl
    · rename_i hnone
      rw [Bool.not_eq_true, List.any_eq_false] at hnone
      symm
      rw [List.filter_eq_self]
      intro a ha
      simpa using hnone a ha
  · intro c a e
    exact ⟨rfl, rfl, rfl⟩
  · intro pl prl c i hi
    simp only [cartGetCart, Cart.set_items, Cart.recalculate_total] at hi
    obtain ⟨x, hx, hfx⟩ := List.mem_filterMap.mp hi
    revert hfx
    cases hpl : pl x.product_id with
    | none => simp
    | some product =>
      cases hprl : prl x.product_id c.currency PRICING_ZONE_DEFAULT with
      | none => simp
      | some pricing =>
        intro hfx
        simp only [Option.some.injEq] at hfx
        exact ⟨x, hx, product, pricing, hpl, hprl, hfx.symm⟩

/-- C9 amended witness: adding a fresh product appends exactly the
add-time snapshot (price from the pricing collaborator at that instant). -/
theorem cart_price_snapshot_witness :
    (cartAddItem (fun _ => some productW) (fun _ _ _ => some priceW) cartW
      "p2" 3).2.items = cartW.items ++ [get_cart_item productW priceW 3] :=
  cart_price_snapshot.1 (fun _ => some productW) (fun _ _ _ => some priceW)
    cartW "p2" 3 productW priceW (by simp [cartW, cartItemW]) rfl rfl

/-! ## Sale-price merge ordering -/

instance : IsTotal SalePricingItem saleLe := by
  constructor
  intro a b
  unfold saleLe saleCmp
  cases ha : a.start with
  | none => cases b.start <;> simp
  | some x =>
    cases hb : b.start with
    | none => simp
    | some y =>
      rw [compare_le_iff_le, compare_le_iff_le]
      exact le_total x y

instance : IsTrans SalePricingItem saleLe := by
  constructor
  intro a b c hab hbc
  unfold saleLe saleCmp at *
  cases ha : a.start with
  | none => cases c.start <;> simp
  | some x =>
    rw [ha] at hab
    cases hb : b.start with
    | none => rw [hb] at hab; simp at hab
    | some y =>
      rw [hb] at hab hbc
      cases hc : c.start with
      | none => rw [hc] at hbc; simp at hbc
      | some z =>
        rw [hc] at hbc
        rw [compare_le_iff_le] at hab hbc ⊢
        exact le_trans hab hbc

/-- C6 counterexample: with an empty update list the merge returns the
current list verbatim, unsorted — here a start-1 entry precedes a start-0
entry in the output. -/
theorem merge_sale_items_unsorted :
    merge_sale_items [] [saleA, saleB] = [saleA, saleB]
    ∧ ¬ List.Sorted saleLe (merge_sale_items [] [saleA, saleB]) := by
  refine ⟨rfl, ?_⟩
  intro h
  have hle : saleLe saleA saleB :=
    (List.sorted_cons.mp h).1 saleB (by simp)
  unfold saleLe saleCmp saleA saleB at hle
  simp at hle
  exact absurd hle (by decide)

/-- C6 amended: when either input list is empty the other is returned
verbatim; whenever both are non-empty, the sale-price merge output is
sorted ascending by start, entries without a start before all entries
with one. -/
theorem merge_sale_items_sorted (U C : List SalePricingItem) :
    merge_sale_items [] C = C
    ∧ merge_sale_items U [] = U
    ∧ (U ≠ [] → C ≠ [] → List.Sorted saleLe (merge_sale_items U C)) := by
  refine ⟨by simp [merge_sale_items], ?_, ?_⟩
  · cases U <;> simp [merge_sale_items]
  · intro hU hC
    have hU' : U.isEmpty = false := by simp [List.isEmpty_iff, hU]
    have hC' : C.isEmpty = false := by simp [List.isEmpty_iff, hC]
    rw [merge_sale_items, hU', hC']
    simp only [Bool.false_eq_true, if_false]
    exact List.sorted_insertionSort saleLe _

/-- C6 amended witness: merging two non-empty singleton lists yields a
sorted output. -/
theorem merge_sale_items_sorted_witness :
    List.Sorted saleLe (merge_sale_items [saleA] [saleB]) :=
  (merge_sale_items_sorted [saleA] [saleB]).2.2 (by simp) (by simp)

/-! ## Plain-tier merge -/

lemma foldl_mapInsert_fresh {K V : Type} [DecidableEq K] (key : V → K)
    (l : List V) :
    ∀ m : List (K × V), (∀ x ∈ l, ∀ p ∈ m, p.1 ≠ key x) →
      (l.map key).Nodup →
      l.foldl (fun acc item => mapInsert acc (key item) item) m
        = m ++ l.map (fun x => (key x, x)) := by
  induction l with
  | nil => intro m _ _; simp
  | cons x xs ih =>
    intro m hfresh hnodup
    have hx : (m.any (fun p => decide (p.1 = key x))) = false := by
      rw [List.any_eq_false]
      intro p hp
      simpa using hfresh x (by simp) p hp
    have hstep : mapInsert m (key x) x = m ++ [(key x, x)] := by
      unfold mapInsert
      rw [hx]
      simp
    rw [List.foldl_cons, hstep,
      ih (m ++ [(key x, x)]) ?_ (List.nodup_cons.mp hnodup).2]
    · simp
    · intro y hy p hp
      rcases List.mem_append.mp hp with hp | hp
      · exact hfresh y (List.mem_cons_of_mem x hy) p hp
      · have hpx : p = (key x, x) := by simpa using hp
        subst hpx
        intro hkey
        have hkey' : key x = key y := hkey
        exact (List.nodup_cons.mp hnodup).1
          (hkey' ▸ List.mem_map_of_mem key hy)

lemma foldl_mapEntryOrInsert {K V : Type} [DecidableEq K] (key : V → K)
    (l : List V) :
    ∀ m : List (K × V), (l.map key).Nodup →
      l.foldl (fun acc item => mapEntryOrInsert acc (key item) item) m
        = m ++ (l.filter
            (fun x => !(m.any (fun p => decide (p.1 = key x))))).map
            (fun x => (key x, x)) := by
  induction l with
  | nil => intro m _; simp
  | cons y ys ih =>
    intro m hnodup
    rw [List.foldl_cons]
    cases hy : (m.any (fun p => decide (p.1 = key y))) with
    | true =>
      have hstep : mapEntryOrInsert m (key y) y = m := by
        unfold mapEntryOrInsert
        rw [hy]
        simp
      rw [hstep, ih m (List.nodup_cons.mp hnodup).2, List.filter_cons]
      simp [hy]
    | false =>
      have hstep : mapEntryOrInsert m (key y) y = m ++ [(key y, y)] := by
        unfold mapEntryOrInsert
        rw [hy]
        simp
      rw [hstep, ih (m ++ [(key y, y)]) (List.nodup_cons.mp hnodup).2]
      have hfilter :
          ys.filter
              (fun x => !((m ++ [(key y, y)]).any
                (fun p => decide (p.1 = key x))))
            = ys.filter (fun x => !(m.any (fun p => decide (p.1 = key x)))) := by
        refine List.filter_congr ?_
        intro z hz
        have hzy : key z ≠ key y := by
          intro hk
          exact (List.nodup_cons.mp hnodup).1
            (hk ▸ List.mem_map_of_mem key hz)
        have hone : (([(key y, y)] : List (K × V)).any
            (fun p => decide (p.1 = key z))) = false := by
          simp
          exact fun h => hzy h.symm
        simp [List.any_append, hone]
      rw [hfilter, List.filter_cons]
      simp [hy]

/-- The kept-entry predicate of the merge: the key of `y` does not occur
among the updates' keys. -/
def keyFresh {K V : Type} [DecidableEq K] (key : V → K) (U : List V)
    (y : V) : Bool :=
  !(U.any (fun x => decide (key x = key y)))

lemma any_map_general {α β : Type} (f : α → β) (p : β → Bool)
    (l : List α) : (l.map f).any p = l.any (fun a => p (f a)) := by
  induction l with
  | nil => rfl
  | cons a t ih => simp [List.any_cons, ih]

lemma mergeMap_eq {K V : Type} [DecidableEq K] (key : V → K)
    (U C : List V) (hU : (U.map key).Nodup) (hC : (C.map key).Nodup) :
    mergeMap key U C
      = U.map (fun x => (key x, x))
        ++ (C.filter (keyFresh key U)).map (fun y => (key y, y)) := by
  unfold mergeMap
  rw [foldl_mapInsert_fresh key U [] (by simp) hU]
  rw [foldl_mapEntryOrInsert key C _ hC]
  rw [List.nil_append]
  congr 1
  have hpred : ∀ y, ((U.map (fun x => (key x, x))).any
      (fun p => decide (p.1 = key y)))
      = (U.any (fun x => decide (key x = key y))) := by
    intro y
    rw [any_map_general]
  refine congrArg _ (List.filter_congr ?_)
  intro y _
  show (!((U.map (fun x => (key x, x))).any (fun p => decide (p.1 = key y))))
      = keyFresh key U y
  rw [hpred y]
  rfl

lemma merge_items_closed (U C : List PricingItem)
    (hU : (U.map PricingItem.key).Nodup)
    (hC : (C.map PricingItem.key).Nodup) :
    merge_items U C = U ++ C.filter (keyFresh PricingItem.key U) := by
  unfold merge_items
  cases hUe : U.isEmpty with
  | true =>
    have : U = [] := List.isEmpty_iff.mp hUe
    subst this
    simp only [if_true]
    exact (List.filter_eq_self.mpr (fun a _ => by simp [keyFresh])).symm
  | false =>
    cases hCe : C.isEmpty with
    | true =>
      have : C = [] := List.isEmpty_iff.mp hCe
      subst this
      simp
    | false =>
      simp only [Bool.false_eq_true, if_false]
      rw [mergeMap_eq PricingItem.key U C hU hC]
      rw [List.map_append, List.map_map, List.map_map]
      have h1 : (Prod.snd ∘ fun x : PricingItem => (x.key, x)) = id := rfl
      rw [h1, List.map_id, List.map_id]

lemma keyFresh_iff (U : List PricingItem) (y : PricingItem) :
    keyFresh PricingItem.key U y = true ↔
      y.key ∉ U.map PricingItem.key := by
  unfold keyFresh
  rw [Bool.not_eq_true', List.any_eq_false]
  simp [List.mem_map]

/-- C7: merging with an empty update list returns `current`; merging into
an empty current list returns `updates`; in general (for key-distinct
inputs, as the spec's map comprehension presumes) the merge holds exactly
one entry per (zone, currency) key of the union of the two key sets, every
update entry is kept, and every merged entry is an update entry or a
current entry whose key no update covers. -/
theorem merge_items_spec (U C : List PricingItem)
    (hU : (U.map PricingItem.key).Nodup)
    (hC : (C.map PricingItem.key).Nodup) :
    merge_items [] C = C
    ∧ merge_items U [] = U
    ∧ ((merge_items U C).map PricingItem.key).Nodup
    ∧ (∀ k, k ∈ (merge_items U C).map PricingItem.key ↔
        k ∈ U.map PricingItem.key ∨ k ∈ C.map PricingItem.key)
    ∧ (∀ x ∈ U, x ∈ merge_items U C)
    ∧ (∀ y ∈ merge_items U C,
        y ∈ U ∨ (y ∈ C ∧ y.key ∉ U.map PricingItem.key)) := by
  have hclosed := merge_items_closed U C hU hC
  refine ⟨by simp [merge_items], by cases C <;> simp [merge_items],
    ?_, ?_, ?_, ?_⟩
  · rw [hclosed, List.map_append, List.nodup_append]
    refine ⟨hU, ?_, ?_⟩
    · exact List.Nodup.sublist
        ((List.filter_sublist C).map PricingItem.key) hC
    · intro k hkU hkC
      obtain ⟨y, hy, hky⟩ := List.mem_map.mp hkC
      have := (List.mem_filter.mp hy).2
      rw [keyFresh_iff] at this
      exact this (hky ▸ hkU)
  · intro k
    rw [hclosed, List.map_append, List.mem_append]
    constructor
    · rintro (h | h)
      · exact Or.inl h
      · obtain ⟨y, hy, hky⟩ := List.mem_map.mp h
        exact Or.inr (hky ▸ List.mem_map_of_mem _ (List.mem_of_mem_filter hy))
    · rintro (h | h)
      · exact Or.inl h
      · by_cases hk : k ∈ U.map PricingItem.key
        · exact Or.inl hk
        · obtain ⟨y, hy, hky⟩ := List.mem_map.mp h
          subst hky
          refine Or.inr (List.mem_map_of_mem _ (List.mem_filter.mpr ⟨hy, ?_⟩))
          rw [keyFresh_iff]
          exact hk
  · intro x hx
    rw [hclosed]
    exact List.mem_append_left _ hx
  · intro y hy
    rw [hclosed] at hy
    rcases List.mem_append.mp hy with h | h
    · exact Or.inl h
    · have h' := List.mem_filter.mp h
      exact Or.inr ⟨h'.1, (keyFresh_iff U y).mp h'.2⟩

/-- C7 witness: on the sample lists, the update entry for the colliding
(global, USD) key is the one kept by the merge. -/
theorem merge_items_spec_witness :
    priceW12 ∈ merge_items mergeU mergeC :=
  (merge_items_spec mergeU mergeC (by simp [mergeU, PricingItem.key])
    (by simp [mergeC, PricingItem.key])).2.2.2.2.1 priceW12
    (by simp [mergeU, priceW12])

end Shopping
